import Mathlib

/-!
# Verification of the edge discovery aggregation pipeline

Shallow embedding of the repository `edge_ha` (Python).  The embedded
modules are:

* `src/backend_apis/master_edge_details.py` — the Aggregator/Orchestrator
  (`lambda_handler`, `parse_edge_discovery_data`, `extract_instance_families`);
* `src/backend_apis/get_localzones_details.py` and
  `src/backend_apis/get_outposts_details.py` — the two collectors' record
  shapes and their shared catalog writer `write_to_dynamo`;
* `src/bedrock_apis/get_parent_az.py` — the Parent-Zone Lookup
  (`get_parent_az`, `lambda_handler`).

Python dynamic values are embedded as the inductive type `Value`
(JSON-like: None, bool, int, str, list, dict with string keys in insertion
order).  Python exceptions are embedded as `Except String`: a thrown
exception is `Except.error msg`.  Python `dict` iteration order is
insertion order (Python ≥ 3.7), embedded as association-list order.
-/

namespace EdgeHA

/-- Embedding of a Python/JSON dynamic value.  Dict keys are strings and
preserve insertion order (Python 3.7+ dict semantics); a dict built by the
embedded code never has duplicate keys. -/
inductive Value where
  | null : Value
  | bool : Bool → Value
  | int : Int → Value
  | str : String → Value
  | list : List Value → Value
  | dict : List (String × Value) → Value

/-- Python truthiness (`bool(v)`): None, False, 0, empty string, empty
list and empty dict are falsy. -/
def truthy : Value → Bool
  | .null => false
  | .bool b => b
  | .int i => i != 0
  | .str s => s ≠ ""
  | .list l => ¬ l.isEmpty
  | .dict d => ¬ d.isEmpty

/-- First-match association-list lookup, the embedding of a Python dict
lookup (keys are unique in dicts built by the embedded code). -/
def dictGet : List (String × Value) → String → Option Value
  | [], _ => none
  | (k, v) :: rest, key => if k = key then some v else dictGet rest key

/-- Embedding of Python subscript `v[key]` with a string key: dict lookup
raising KeyError on a missing key, TypeError on non-dicts. -/
def pySubscript (v : Value) (key : String) : Except String Value :=
  match v with
  | .dict d =>
    match dictGet d key with
    | some x => .ok x
    | none => .error ("KeyError: " ++ key)
  | .str _ => .error "TypeError: string indices must be integers"
  | .list _ => .error "TypeError: list indices must be integers"
  | _ => .error "TypeError: object is not subscriptable"

/-- Prefix test on char lists (helper for the substring test below). -/
def listIsPrefix : List Char → List Char → Bool
  | [], _ => true
  | _ :: _, [] => false
  | a :: as, b :: bs => a = b && listIsPrefix as bs

/-- Infix (substring) test on char lists. -/
def listIsInfix (n : List Char) : List Char → Bool
  | [] => n.isEmpty
  | c :: t => listIsPrefix n (c :: t) || listIsInfix n t

/-- Embedding of Python `key in v` for a string key: key containment for
dicts, substring test for strings, element test for lists, TypeError
otherwise. -/
def pyIn (key : String) (v : Value) : Except String Bool :=
  match v with
  | .dict d => .ok (d.any (fun p => p.1 = key))
  | .str s => .ok (listIsInfix key.toList s.toList)
  | .list l => .ok (l.any (fun x => match x with | .str s => s = key | _ => false))
  | _ => .error "TypeError: argument is not iterable"

/-- Embedding of Python `v.get(key, default)`: AttributeError when `v` is
not a dict. -/
def pyGetD (v : Value) (key : String) (dflt : Value) : Except String Value :=
  match v with
  | .dict d => .ok ((dictGet d key).getD dflt)
  | _ => .error "AttributeError: get"

/-- Embedding of Python `v.items()`: the key/value pairs of a dict in
insertion order; AttributeError when `v` is not a dict. -/
def pyItems (v : Value) : Except String (List (String × Value)) :=
  match v with
  | .dict d => .ok d
  | _ => .error "AttributeError: items"

/-- Embedding of Python iteration `for x in v`: list elements, the
characters of a string (as 1-character strings), the keys of a dict;
TypeError otherwise. -/
def pyIter (v : Value) : Except String (List Value) :=
  match v with
  | .list l => .ok l
  | .str s => .ok (s.toList.map (fun c => Value.str (String.singleton c)))
  | .dict d => .ok (d.map (fun p => Value.str p.1))
  | _ => .error "TypeError: object is not iterable"

/-- Nth element of a list of values (structural). -/
def listNth : List Value → Nat → Option Value
  | [], _ => none
  | x :: _, 0 => some x
  | _ :: rest, n + 1 => listNth rest n

/-- Embedding of Python `v[i]` with an integer index (non-negative only,
which is all the embedded code uses): IndexError past the end of a list or
string, TypeError/KeyError otherwise. -/
def pyIndex (v : Value) (i : Nat) : Except String Value :=
  match v with
  | .list l =>
    match listNth l i with
    | some x => .ok x
    | none => .error "IndexError: list index out of range"
  | .str s =>
    match s.toList.get? i with
    | some c => .ok (.str (String.singleton c))
    | none => .error "IndexError: string index out of range"
  | .dict _ => .error "KeyError: integer key"
  | _ => .error "TypeError: object is not subscriptable"

/-! ## Family Classifier (`extract_instance_families`, master_edge_details.py lines 138-165)

The Python function accumulates size tokens into three `set()`s and
returns `sorted(list(s))` for each.  A Python string set is embedded as
the strictly-sorted duplicate-free list of its elements (`setInsert`
preserves that representation), so the final `sorted(list(...))` is the
identity on the representation and the accumulator itself is returned. -/

/-- Lexicographic comparison of char lists by code point, the order
Python uses for `sorted` on strings. -/
def charListLt : List Char → List Char → Bool
  | [], [] => false
  | [], _ :: _ => true
  | _ :: _, [] => false
  | a :: as, b :: bs => a < b || (a = b && charListLt as bs)

/-- Executable string comparison (Python `<` on `str`), proven below to
agree with Mathlib's linear order on `String`. -/
def strLt (a b : String) : Bool := charListLt a.toList b.toList

/-- Insert a string into the sorted duplicate-free list representing a
Python `set` of strings (no-op when already present). -/
def setInsert (a : String) : List String → List String
  | [] => [a]
  | b :: rest =>
    if a = b then b :: rest
    else if strLt a b then a :: b :: rest
    else b :: setInsert a rest

/-- Embedding of Python `s.split('.')` (single-character separator):
splits on every dot, keeping empty segments; `"".split('.') == [""]`. -/
def splitDotAux : List Char → List Char → List String
  | [], cur => [String.mk cur.reverse]
  | c :: rest, cur =>
    if c = '.' then String.mk cur.reverse :: splitDotAux rest []
    else splitDotAux rest (c :: cur)

/-- Embedding of Python `s.split('.')`. -/
def splitDot (s : String) : List String := splitDotAux s.toList []

/-- Embedding of Python `s.startswith(c)` for a single-character prefix. -/
def strStartsWith (s : String) (c : Char) : Bool :=
  match s.toList with
  | [] => false
  | a :: _ => a = c

/-- Loop body of `extract_instance_families` for one non-falsy string
`instance_type` (master_edge_details.py lines 150-162): split on dots,
and when there are at least two parts classify by the first character of
the part before the first dot, inserting the part after the first dot
into the matching family set. -/
def classifyAdd (acc : List String × List String × List String) (instance_type : String) :
    List String × List String × List String :=
  match splitDot instance_type with
  | family_part :: size :: _ =>
    if strStartsWith family_part 'c' then (setInsert size acc.1, acc.2.1, acc.2.2)
    else if strStartsWith family_part 'm' then (acc.1, setInsert size acc.2.1, acc.2.2)
    else if strStartsWith family_part 'r' then (acc.1, acc.2.1, setInsert size acc.2.2)
    else acc
  | _ => acc

/-- One iteration of the `extract_instance_families` loop over an element
that is a string or None (`if not instance_type: continue` skips falsy
elements, i.e. None and the empty string). -/
def extractStep (acc : List String × List String × List String) (it : Option String) :
    List String × List String × List String :=
  match it with
  | none => acc
  | some s => if s = "" then acc else classifyAdd acc s

/-- Embedding of `extract_instance_families` (master_edge_details.py
lines 138-165) at its intended element type (capacity-type identifier
strings, possibly None).  Returns the three family size lists
(`c_family`, `m_family`, `r_family`), each the sorted duplicate-free
content of the corresponding Python set. -/
def extract_instance_families (instance_types : List (Option String)) :
    List String × List String × List String :=
  instance_types.foldl extractStep ([], [], [])

/-- Classification of one element: `some (bucket, size)` when the element
is a non-empty string with at least two dot-separated parts whose first
part starts with c, m or r; `none` (no contribution) otherwise. -/
def classify (it : Option String) : Option (Char × String) :=
  match it with
  | none => none
  | some s =>
    if s = "" then none
    else
      match splitDot s with
      | family_part :: size :: _ =>
        if strStartsWith family_part 'c' then some ('c', size)
        else if strStartsWith family_part 'm' then some ('m', size)
        else if strStartsWith family_part 'r' then some ('r', size)
        else none
      | _ => none

/-- The size token an element contributes to the bucket named by `c`. -/
def bucketOf (c : Char) (it : Option String) : Option String :=
  match classify it with
  | some p => if p.1 = c then some p.2 else none
  | none => none

/-- Folding `setInsert` over a list of size tokens (the evolution of one
Python set across the classifier loop). -/
def foldSet (l : List String) (init : List String) : List String :=
  l.foldl (fun s a => setInsert a s) init

/-! ## Aggregator/Orchestrator (master_edge_details.py)

`lambda_handler` invokes the `get_outposts_details` lambda first and the
`get_localzones_details` lambda second, each inside its own try/except.
The outcome of one external invocation (everything that can happen at the
`lambda_client.invoke` + `json.loads(response['Payload'].read())`
boundary) is embedded as `InvokeOutcome`:

* `raises clientError msg` — the invoke call raised (`ClientError` when
  the flag is true, any other exception otherwise);
* `returns statusCode payload` — the invoke call returned with the given
  status code, and reading/JSON-decoding the payload gave `payload`
  (`Except.error` when `json.loads` raised). -/

/-- Outcome of one collector invocation at the external boundary. -/
inductive InvokeOutcome where
  | raises : Bool → String → InvokeOutcome
  | returns : Nat → Except String Value → InvokeOutcome

/-- One try/except block of `lambda_handler` (master_edge_details.py
lines 20-39 for outposts, 41-60 for localzones): produces the value
stored in `results` (None embedded as `Value.null` when not set) and the
list of error strings appended (at most one). -/
def processInvoke (statusLabel fnName : String) (call : InvokeOutcome) :
    Value × List String :=
  match call with
  | .returns code (.ok payload) =>
    if code = 200 then (payload, [])
    else (.null, [statusLabel ++ " lambda failed with status: " ++ toString code])
  | .returns _ (.error e) =>
    (.null, ["Unexpected error calling " ++ fnName ++ ": " ++ e])
  | .raises true e => (.null, ["Error calling " ++ fnName ++ ": " ++ e])
  | .raises false e => (.null, ["Unexpected error calling " ++ fnName ++ ": " ++ e])

/-- The `results` dict of `lambda_handler` (master_edge_details.py lines
14-18): keys `outposts`, `localzones` (initialized to None, i.e.
`Value.null`) and `errors`. -/
structure Results where
  outposts : Value
  localzones : Value
  errors : List String

/-- The `results` dict after both collector invocations: the outposts
block runs first, the localzones block second, and each appends its
errors in that order. -/
def mkResults (outpostsCall localzonesCall : InvokeOutcome) : Results :=
  let op := processInvoke "Outposts" "get_outposts_details" outpostsCall
  let lz := processInvoke "Local zones" "get_localzones_details" localzonesCall
  { outposts := op.1, localzones := lz.1, errors := op.2 ++ lz.2 }

/-- One iteration of the `extract_instance_families` loop over an
arbitrary Python value: falsy elements are skipped
(`if not instance_type: continue`), non-string truthy elements raise
AttributeError at `.split('.')`. -/
def famStep (acc : List String × List String × List String) (v : Value) :
    Except String (List String × List String × List String) :=
  if truthy v then
    match v with
    | .str s => pure (classifyAdd acc s)
    | _ => .error "AttributeError: split"
  else pure acc

/-- `extract_instance_families` applied to an actual Python list of
arbitrary values (as in the outposts branch of
`parse_edge_discovery_data`). -/
def extractFamiliesListV (elems : List Value) :
    Except String (List String × List String × List String) :=
  elems.foldlM famStep ([], [], [])

/-- `extract_instance_families` applied to an arbitrary Python value (as
in the localzones branch, where `zone_info.get('InstanceTypes', [])` may
be any value): iterating a non-iterable raises TypeError. -/
def extractFamiliesV (v : Value) :
    Except String (List String × List String × List String) := do
  let elems ← pyIter v
  extractFamiliesListV elems

/-- Body of the localzones loop of `parse_edge_discovery_data`
(master_edge_details.py lines 96-107): classify the zone's
`InstanceTypes` and build the `public_local_zones` entry. -/
def lzEntryOfItem (zp : String × Value) : Except String Value := do
  let its ← pyGetD zp.2 "InstanceTypes" (.list [])
  let fams ← extractFamiliesV its
  let regionName ← pyGetD zp.2 "RegionName" (.str "")
  let parentAz ← pyGetD zp.2 "ParentAZ" (.str "")
  pure (Value.dict [("edge_id", .str zp.1), ("parent_region", regionName),
    ("parent_az", parentAz), ("c_family", .list (fams.1.map .str)),
    ("m_family", .list (fams.2.1.map .str)),
    ("r_family", .list (fams.2.2.map .str))])

/-- One localzones loop iteration: append the entry built from the item. -/
def lzLoopStep (acc : List Value) (zp : String × Value) : Except String (List Value) := do
  let entry ← lzEntryOfItem zp
  pure (acc ++ [entry])

/-- The localzones branch of `parse_edge_discovery_data`
(master_edge_details.py lines 92-108): guarded walk into
`results['localzones']['body']['localZones']`, then one
`public_local_zones` entry per zone in dict order. -/
def parseLocalZones (localzones : Value) : Except String (List Value) := do
  if truthy localzones then
    let hasBody ← pyIn "body" localzones
    if hasBody then do
      let lz_data ← pySubscript localzones "body"
      let hasLz ← pyIn "localZones" lz_data
      if hasLz then do
        let zonesV ← pySubscript lz_data "localZones"
        let items ← pyItems zonesV
        items.foldlM lzLoopStep ([] : List Value)
      else pure []
    else pure []
  else pure []

/-- Innermost loop body of the outposts flattening (master_edge_details.py
lines 119-120): append `instance_type_info['InstanceType']`. -/
def opInnerStep (acc2 : List Value) (info : Value) : Except String (List Value) := do
  let t ← pySubscript info "InstanceType"
  pure (acc2 ++ [t])

/-- Inner flattening loops of the outposts branch (master_edge_details.py
lines 117-120): for one server, append each
`instance_type_info['InstanceType']` to the accumulated list. -/
def opCollectTypes (acc : List Value) (server : Value) : Except String (List Value) := do
  let itsV ← pyGetD server "InstanceType" (.list [])
  let infos ← pyIter itsV
  infos.foldlM opInnerStep acc

/-- The outposts branch of `parse_edge_discovery_data`
(master_edge_details.py lines 110-133): guarded walk into
`results['outposts']['body']['outposts']`, then the entry for the
**first** outpost only (the loop body ends in `break`). -/
def parseOutposts (outposts : Value) : Except String Value := do
  if truthy outposts then
    let hasBody ← pyIn "body" outposts
    if hasBody then do
      let op_data ← pySubscript outposts "body"
      let hasOp ← pyIn "outposts" op_data
      if hasOp then do
        let opV ← pySubscript op_data "outposts"
        let items ← pyItems opV
        match items with
        | [] => pure (Value.dict [])
        | (outpost_id, outpost_info) :: _ => do
          let serversV ← pyGetD outpost_info "Servers" (.list [])
          let servers ← pyIter serversV
          let all_instance_types ← servers.foldlM opCollectTypes ([] : List Value)
          let fams ← extractFamiliesListV all_instance_types
          let regionV ← pyGetD op_data "region" (.str "")
          let parentAz ← pyGetD outpost_info "AvailabilityZone" (.str "")
          pure (Value.dict [("edge_id", .str outpost_id), ("parent_region", regionV),
            ("parent_az", parentAz), ("c_family", .list (fams.1.map .str)),
            ("m_family", .list (fams.2.1.map .str)),
            ("r_family", .list (fams.2.2.map .str))])
      else pure (Value.dict [])
    else pure (Value.dict [])
  else pure (Value.dict [])

/-- Embedding of `parse_edge_discovery_data` (master_edge_details.py
lines 83-135).  A raised Python exception is `Except.error`; the answer
document is returned as the `Value` that `json.dumps` would serialize. -/
def parse_edge_discovery_data (results : Results) : Except String Value := do
  let public_local_zones ← parseLocalZones results.localzones
  let outposts ← parseOutposts results.outposts
  pure (Value.dict [("answer", Value.dict
    [("public_local_zones", .list public_local_zones),
     ("outposts", outposts)])])

/-- A lambda HTTP-style response: status code plus the JSON content of
the serialized body. -/
structure LambdaResponse where
  statusCode : Nat
  body : Value

/-- The failure body of the Aggregator (master_edge_details.py lines
75-79). -/
def failureBody (errors : List String) : Value :=
  Value.dict [("success", .bool false),
    ("errors", .list (errors.map .str)),
    ("message", .str "Edge discovery completed with errors")]

/-- Embedding of the Aggregator `lambda_handler` (master_edge_details.py
lines 5-80).  Note: `parse_edge_discovery_data` is called outside any
try/except (line 67), so an exception it raises propagates out of the
handler (`Except.error`). -/
def lambda_handler (outpostsCall localzonesCall : InvokeOutcome) :
    Except String LambdaResponse :=
  let results := mkResults outpostsCall localzonesCall
  if results.errors.length = 0 then
    match parse_edge_discovery_data results with
    | .ok formatted => .ok { statusCode := 200, body := formatted }
    | .error e => .error e
  else
    .ok { statusCode := 500, body := failureBody results.errors }

/-! ## Collector record shapes

The shapes the two collectors actually produce on success
(get_localzones_details.py lines 53-62 and 125-132;
get_outposts_details.py lines 44-65 and 125-131), as constructor
functions into `Value`. -/

/-- One zone record as built by `get_local_zones_instance_types`
(get_localzones_details.py lines 53-62). -/
structure ZoneSrc where
  zoneId : Value
  regionName : Value
  parentAZ : Value
  groupName : Value
  networkBorderGroup : Value
  optInStatus : Value
  instanceTypes : List String

/-- The zone record keyed under `zone_name` as a Python dict. -/
def ZoneSrc.toValue (zone_name : String) (z : ZoneSrc) : Value :=
  .dict [("ZoneId", z.zoneId), ("RegionName", z.regionName),
    ("ZoneName", .str zone_name), ("ParentAZ", z.parentAZ),
    ("GroupName", z.groupName), ("NetworkBorderGroup", z.networkBorderGroup),
    ("OptInStatus", z.optInStatus),
    ("InstanceTypes", .list (z.instanceTypes.map .str))]

/-- The success payload of the Zone Collector lambda
(get_localzones_details.py lines 125-132). -/
def mkLocalZonesPayload (region : String) (zones : List (String × ZoneSrc))
    (dynamoResult : Value) : Value :=
  .dict [("statusCode", .int 200), ("body", .dict
    [("region", .str region),
     ("localZones", .dict (zones.map (fun p => (p.1, ZoneSrc.toValue p.1 p.2)))),
     ("dynamo_result", dynamoResult)])]

/-- One asset record as built by `get_outposts_info`
(get_outposts_details.py lines 46-52): its `InstanceType` key holds the
capacity list, one `{'InstanceType': t}` dict per capacity type. -/
structure ServerSrc where
  assetId : Value
  assetType : Value
  status : Value
  hostFamily : Value
  instanceTypes : List String

/-- The asset record as a Python dict. -/
def ServerSrc.toValue (s : ServerSrc) : Value :=
  .dict [("AssetId", s.assetId), ("AssetType", s.assetType),
    ("Status", s.status), ("Host_Family", s.hostFamily),
    ("InstanceType", .list (s.instanceTypes.map
      (fun t => Value.dict [("InstanceType", .str t)])))]

/-- One outpost record as built by `get_outposts_info`
(get_outposts_details.py lines 58-65). -/
structure OutpostSrc where
  outpostArn : Value
  name : Value
  availabilityZone : Value
  availabilityZoneId : Value
  supportedHardwareType : Value
  servers : List ServerSrc

/-- The outpost record as a Python dict. -/
def OutpostSrc.toValue (o : OutpostSrc) : Value :=
  .dict [("OutpostArn", o.outpostArn), ("Name", o.name),
    ("AvailabilityZone", o.availabilityZone),
    ("AvailabilityZoneId", o.availabilityZoneId),
    ("SupportedHardwareType", o.supportedHardwareType),
    ("Servers", .list (o.servers.map ServerSrc.toValue))]

/-- The success payload of the Extension Collector lambda
(get_outposts_details.py lines 125-131). -/
def mkOutpostsPayload (region : String) (racks : List (String × OutpostSrc))
    (dynamoResult : Value) : Value :=
  .dict [("statusCode", .int 200), ("body", .dict
    [("region", .str region),
     ("outposts", .dict (racks.map (fun p => (p.1, OutpostSrc.toValue p.2)))),
     ("dynamo_result", dynamoResult)])]

/-- The `public_local_zones` entry the Aggregator builds for one zone. -/
def localZoneEntry (zone_name : String) (z : ZoneSrc) : Value :=
  let fams := extract_instance_families (z.instanceTypes.map some)
  .dict [("edge_id", .str zone_name), ("parent_region", z.regionName),
    ("parent_az", z.parentAZ), ("c_family", .list (fams.1.map .str)),
    ("m_family", .list (fams.2.1.map .str)),
    ("r_family", .list (fams.2.2.map .str))]

/-- The `outposts` entry the Aggregator builds: metadata and capacity
pool both come from the **first** outpost only. -/
def outpostsEntry (region : String) (racks : List (String × OutpostSrc)) : Value :=
  match racks with
  | [] => .dict []
  | (outpost_id, info) :: _ =>
    let fams := extract_instance_families
      (((info.servers.map ServerSrc.instanceTypes).flatten).map some)
    .dict [("edge_id", .str outpost_id), ("parent_region", .str region),
      ("parent_az", info.availabilityZone),
      ("c_family", .list (fams.1.map .str)),
      ("m_family", .list (fams.2.1.map .str)),
      ("r_family", .list (fams.2.2.map .str))]

/-- The extensions entry as claim C3 describes it, modelled from the
spec's words: capacity-type identifiers flattened across the physical
assets of **all** extension racks, classified as one pool, with the first
rack as carrier of the `edge_id`/`parent_az` metadata.  Used only to
compare the spec's description against `outpostsEntry` (what the code
computes). -/
def outpostsEntryAllRacks (region : String) (racks : List (String × OutpostSrc)) : Value :=
  match racks with
  | [] => .dict []
  | (outpost_id, info) :: _ =>
    let fams := extract_instance_families
      (((racks.map (fun p => (p.2.servers.map ServerSrc.instanceTypes).flatten)).flatten).map some)
    .dict [("edge_id", .str outpost_id), ("parent_region", .str region),
      ("parent_az", info.availabilityZone),
      ("c_family", .list (fams.1.map .str)),
      ("m_family", .list (fams.2.1.map .str)),
      ("r_family", .list (fams.2.2.map .str))]

/-- The full answer document on the success path. -/
def answerValue (public_local_zones : List Value) (outposts : Value) : Value :=
  Value.dict [("answer", Value.dict
    [("public_local_zones", .list public_local_zones),
     ("outposts", outposts)])]

/-- String prefix test (structural, on the character lists). -/
def msgHasPrefix (p m : String) : Bool := listIsPrefix p.toList m.toList

/-- An error message attributable to the Extension Collector
(`get_outposts_details`): one of the three message forms the outposts
try/except block of the Aggregator can append. -/
def isOutpostsErrorMsg (m : String) : Bool :=
  msgHasPrefix "Outposts lambda failed with status: " m ||
  msgHasPrefix "Error calling get_outposts_details: " m ||
  msgHasPrefix "Unexpected error calling get_outposts_details: " m

/-- An error message attributable to the Zone Collector
(`get_localzones_details`). -/
def isLocalzonesErrorMsg (m : String) : Bool :=
  msgHasPrefix "Local zones lambda failed with status: " m ||
  msgHasPrefix "Error calling get_localzones_details: " m ||
  msgHasPrefix "Unexpected error calling get_localzones_details: " m

/-! ## Catalog writer (`write_to_dynamo` in both collectors)

The DynamoDB `table.put_item` boundary is embedded as a function
`put : Value → Except String Unit` (deterministic per item); the writer
additionally returns the trace of `put_item` calls it issued, so that
partial-batch behavior is observable.  A raised `put_item` exception
propagates out of `write_to_dynamo` (there is no try/except inside the
loop), embedded as `Except.error`. -/

/-- The DynamoDB item built for one local zone
(get_localzones_details.py lines 83-95): note `available_families` is a
list of one-entry `{instance_type: instance_type}` dicts. -/
def lzItem (zone_data : ZoneSrc) : Value :=
  .dict [("edge_id", zone_data.zoneId), ("edge_type", .str "Public_LocalZone"),
    ("parent_az", zone_data.parentAZ),
    ("available_families", .list (zone_data.instanceTypes.map
      (fun t => Value.dict [(t, .str t)])))]

/-- The DynamoDB item built for one outpost (get_outposts_details.py
lines 86-94): `available_families` holds the raw server/asset dicts. -/
def opItem (outpost_id : String) (outpost_data : OutpostSrc) : Value :=
  .dict [("edge_id", .str outpost_id),
    ("edge_type", outpost_data.supportedHardwareType),
    ("parent_az", outpost_data.availabilityZoneId),
    ("available_families", .list (outpost_data.servers.map ServerSrc.toValue))]

/-- The shared write loop of both `write_to_dynamo` functions: build the
item, call `put_item`, count; a raised exception stops the loop and
propagates.  Returns the final result (count or exception) and the trace
of items passed to `put_item`. -/
def dynamoWriteLoop (put : Value → Except String Unit) (mkItem : α → Value) :
    List α → Nat → List Value → Except String Nat × List Value
  | [], records_written, trace => (.ok records_written, trace)
  | x :: rest, records_written, trace =>
    match put (mkItem x) with
    | .ok _ => dynamoWriteLoop put mkItem rest (records_written + 1) (trace ++ [mkItem x])
    | .error e => (.error e, trace ++ [mkItem x])

/-- Embedding of `write_to_dynamo` (get_localzones_details.py lines
66-100), typed at the record shape its producer
`get_local_zones_instance_types` builds. -/
def write_to_dynamo_localzones (put : Value → Except String Unit)
    (local_zones_data : List (String × ZoneSrc)) : Except String Nat × List Value :=
  dynamoWriteLoop put (fun p => lzItem p.2) local_zones_data 0 []

/-- Embedding of `write_to_dynamo` (get_outposts_details.py lines
69-99), typed at the record shape its producer `get_outposts_info`
builds. -/
def write_to_dynamo_outposts (put : Value → Except String Unit)
    (outposts_data : List (String × OutpostSrc)) : Except String Nat × List Value :=
  dynamoWriteLoop put (fun p => opItem p.1 p.2) outposts_data 0 []

/-! ## Parent-Zone Lookup (get_parent_az.py)

The `discovery` DynamoDB table is embedded as a list of items (each a
Python dict); `table.query` with `Key('edge_id').eq(edge_id)` returns
the items whose `edge_id` attribute equals the requested string, in
store order.  `get_parent_az` issues only that query, so the embedded
function passes the store through unchanged (second component). -/

/-- The `table.query(KeyConditionExpression=Key('edge_id').eq(...))`
boundary. -/
def table_query_discovery (store : List (List (String × Value)))
    (edge_id : String) : List (List (String × Value)) :=
  store.filter (fun item =>
    match dictGet item "edge_id" with
    | some (.str s) => s = edge_id
    | _ => false)

/-- Embedding of `get_parent_az` (get_parent_az.py lines 6-43): a total
function (it never raises — the empty-items case returns the
found=false record before `items[0]` is evaluated). -/
def get_parent_az (edge_id : String) (store : List (List (String × Value))) :
    Value × List (List (String × Value)) :=
  let items := table_query_discovery store edge_id
  match items with
  | [] =>
    (Value.dict [("edge_id", .str edge_id), ("parent_az", .null),
      ("found", .bool false)], store)
  | item :: _ =>
    (Value.dict [("edge_id", .str edge_id),
      ("parent_az", (dictGet item "parent_az").getD .null),
      ("found", .bool true)], store)

/-- Embedding of Python `event[key]` on the event dict. -/
def keyLookup (d : List (String × Value)) (key : String) : Except String Value :=
  match dictGet d key with
  | some v => .ok v
  | none => .error ("KeyError: " ++ key)

/-- `get_parent_az` as invoked from the handler's try block on a dynamic
edge-id value: a non-string id cannot be used in a DynamoDB key
condition and raises (caught by the handler's except). -/
def get_parent_az_value (v : Value) (store : List (List (String × Value))) :
    Except String Value :=
  match v with
  | .str s => .ok (get_parent_az s store).1
  | _ => .error "ParamValidationError"

/-- Embedding of the Parent-Zone Lookup `lambda_handler`
(get_parent_az.py lines 45-122).  `parameters[0]` and `parameters[1]`
are indexed before the missing-parameter validation and outside the try
block, so those indexing errors propagate (`Except.error`); everything
from `get_parent_az` on is inside the try and is converted to the
statusCode-500 response.  Response bodies stand for the JSON content
`json.dumps` would produce. -/
def get_parent_az_lambda_handler (store : List (List (String × Value)))
    (event : List (String × Value)) : Except String Value := do
  let _region := (dictGet event "region").getD (.str "us-east-1")
  let _agent ← keyLookup event "agent"
  let actionGroup ← keyLookup event "actionGroup"
  let function ← keyLookup event "function"
  let parameters := (dictGet event "parameters").getD (.list [])
  let p0 ← pyIndex parameters 0
  let edge_id_1 ← pyGetD p0 "value" .null
  let p1 ← pyIndex parameters 1
  let edge_id_2 ← pyGetD p1 "value" .null
  if ¬ (truthy edge_id_1 && truthy edge_id_2) then
    pure (Value.dict [("statusCode", .int 400), ("body", Value.dict
      [("error", .str "Missing required parameters: edge_id_1, edge_id_2")])])
  else
    match (do
      let result_1 ← get_parent_az_value edge_id_1 store
      let result_2 ← get_parent_az_value edge_id_2 store
      pure (Value.dict [("messageVersion", .str "1.0"), ("response", Value.dict
        [("actionGroup", actionGroup), ("function", function),
         ("functionResponse", Value.dict [("responseBody", Value.dict
           [("TEXT", Value.dict [("body", Value.dict
             [("edge_id_1", result_1), ("edge_id_2", result_2)])])])])])]) :
      Except String Value) with
    | .ok v => pure v
    | .error e => pure (Value.dict [("statusCode", .int 500),
        ("body", Value.dict [("error", .str e)])])

/-! ### Order and set lemmas -/

theorem charListLt_iff (a b : List Char) : charListLt a b = true ↔ List.Lex (· < ·) a b := by
  induction a generalizing b with
  | nil =>
    cases b with
    | nil => simp [charListLt]
    | cons y ys => simp [charListLt]; exact List.Lex.nil
  | cons x xs ih =>
    cases b with
    | nil =>
      simp only [charListLt, Bool.false_eq_true, false_iff]
      intro h
      cases h
    | cons y ys =>
      simp [charListLt]
      constructor
      · rintro (h | ⟨rfl, h⟩)
        · exact List.Lex.rel h
        · exact List.Lex.cons ((ih ys).mp h)
      · intro h
        cases h with
        | cons h => exact Or.inr ⟨rfl, (ih _).mpr h⟩
        | rel h => exact Or.inl h

theorem strLt_iff (a b : String) : strLt a b = true ↔ a < b := by
  rw [strLt, charListLt_iff, String.lt_iff_toList_lt]
  rfl

theorem mem_setInsert (x a : String) (l : List String) :
    x ∈ setInsert a l ↔ x = a ∨ x ∈ l := by
  induction l with
  | nil => simp [setInsert]
  | cons b rest ih =>
    by_cases hab : a = b
    · subst hab
      simp [setInsert]
    · simp only [setInsert, if_neg hab]
      by_cases hlt : strLt a b
      · simp [hlt]
      · simp [hlt, ih]
        tauto

theorem sorted_setInsert (a : String) (l : List String)
    (h : l.Sorted (· < ·)) : (setInsert a l).Sorted (· < ·) := by
  induction l with
  | nil => simp [setInsert]
  | cons b rest ih =>
    have hb := List.sorted_cons.mp h
    by_cases hab : a = b
    · subst hab
      simpa [setInsert] using h
    · simp only [setInsert, if_neg hab]
      by_cases hlt : strLt a b
      · rw [if_pos hlt]
        refine List.sorted_cons.mpr ⟨?_, h⟩
        intro x hx
        rcases List.mem_cons.mp hx with rfl | hx
        · exact (strLt_iff a x).mp hlt
        · exact lt_trans ((strLt_iff a b).mp hlt) (hb.1 x hx)
      · rw [if_neg hlt]
        have hba : b < a := by
          rcases lt_trichotomy a b with h1 | h1 | h1
          · exact absurd ((strLt_iff a b).mpr h1) (by simpa using hlt)
          · exact absurd h1 hab
          · exact h1
        refine List.sorted_cons.mpr ⟨?_, ih hb.2⟩
        intro x hx
        rcases (mem_setInsert x a rest).mp hx with rfl | hx
        · exact hba
        · exact hb.1 x hx

theorem mem_foldSet (x : String) (l init : List String) :
    x ∈ foldSet l init ↔ x ∈ init ∨ x ∈ l := by
  induction l generalizing init with
  | nil => simp [foldSet]
  | cons a rest ih =>
    simp only [foldSet, List.foldl_cons]
    rw [show List.foldl (fun s a => setInsert a s) (setInsert a init) rest =
      foldSet rest (setInsert a init) from rfl, ih, mem_setInsert]
    simp
    tauto

theorem sorted_foldSet (l init : List String) (h : init.Sorted (· < ·)) :
    (foldSet l init).Sorted (· < ·) := by
  induction l generalizing init with
  | nil => exact h
  | cons a rest ih =>
    simp only [foldSet, List.foldl_cons]
    exact ih _ (sorted_setInsert a init h)

/-- Two strictly sorted lists with the same members are equal. -/
theorem sorted_eq_of_mem_iff {L M : List String}
    (hL : L.Sorted (· < ·)) (hM : M.Sorted (· < ·))
    (h : ∀ x, x ∈ L ↔ x ∈ M) : L = M := by
  haveI : IsAntisymm String (· < ·) :=
    ⟨fun a b h1 h2 => absurd h2 (asymm h1)⟩
  refine List.eq_of_perm_of_sorted ?_ hL hM
  refine List.perm_of_nodup_nodup_toFinset_eq hL.nodup hM.nodup ?_
  ext x
  simp [h x]

/-! ### Decomposition of the classifier fold into three independent sets -/

theorem extractStep_fst (acc : List String × List String × List String)
    (it : Option String) :
    (extractStep acc it).1 =
      match bucketOf 'c' it with
      | some sz => setInsert sz acc.1
      | none => acc.1 := by
  cases it with
  | none => rfl
  | some s =>
    simp only [extractStep, bucketOf, classify, classifyAdd]
    by_cases h0 : s = ""
    · simp [h0]
    · simp only [h0, if_neg, if_false, ite_false]
      cases hsp : splitDot s with
      | nil => simp
      | cons fp rest =>
        cases rest with
        | nil => simp
        | cons sz rest2 =>
          by_cases hc : strStartsWith fp 'c'
          · simp [hc]
          · by_cases hm : strStartsWith fp 'm'
            · simp [hc, hm]
            · by_cases hr : strStartsWith fp 'r'
              · simp [hc, hm, hr]
              · simp [hc, hm, hr]

theorem extractStep_m (acc : List String × List String × List String)
    (it : Option String) :
    (extractStep acc it).2.1 =
      match bucketOf 'm' it with
      | some sz => setInsert sz acc.2.1
      | none => acc.2.1 := by
  cases it with
  | none => rfl
  | some s =>
    simp only [extractStep, bucketOf, classify, classifyAdd]
    by_cases h0 : s = ""
    · simp [h0]
    · simp only [h0, if_neg, if_false, ite_false]
      cases hsp : splitDot s with
      | nil => simp
      | cons fp rest =>
        cases rest with
        | nil => simp
        | cons sz rest2 =>
          by_cases hc : strStartsWith fp 'c'
          · simp [hc]
          · by_cases hm : strStartsWith fp 'm'
            · simp [hc, hm]
            · by_cases hr : strStartsWith fp 'r'
              · simp [hc, hm, hr]
              · simp [hc, hm, hr]

theorem extractStep_r (acc : List String × List String × List String)
    (it : Option String) :
    (extractStep acc it).2.2 =
      match bucketOf 'r' it with
      | some sz => setInsert sz acc.2.2
      | none => acc.2.2 := by
  cases it with
  | none => rfl
  | some s =>
    simp only [extractStep, bucketOf, classify, classifyAdd]
    by_cases h0 : s = ""
    · simp [h0]
    · simp only [h0, if_neg, if_false, ite_false]
      cases hsp : splitDot s with
      | nil => simp
      | cons fp rest =>
        cases rest with
        | nil => simp
        | cons sz rest2 =>
          by_cases hc : strStartsWith fp 'c'
          · simp [hc]
          · by_cases hm : strStartsWith fp 'm'
            · simp [hc, hm]
            · by_cases hr : strStartsWith fp 'r'
              · simp [hc, hm, hr]
              · simp [hc, hm, hr]

theorem extract_fold_fst (l : List (Option String))
    (acc : List String × List String × List String) :
    (l.foldl extractStep acc).1 = foldSet (l.filterMap (bucketOf 'c')) acc.1 := by
  induction l generalizing acc with
  | nil => simp [foldSet]
  | cons it rest ih =>
    simp only [List.foldl_cons, List.filterMap_cons]
    rw [ih]
    cases h : bucketOf 'c' it with
    | none => rw [extractStep_fst, h]
    | some sz =>
      rw [extractStep_fst, h]
      simp [foldSet]

theorem extract_fold_m (l : List (Option String))
    (acc : List String × List String × List String) :
    (l.foldl extractStep acc).2.1 = foldSet (l.filterMap (bucketOf 'm')) acc.2.1 := by
  induction l generalizing acc with
  | nil => simp [foldSet]
  | cons it rest ih =>
    simp only [List.foldl_cons, List.filterMap_cons]
    rw [ih]
    cases h : bucketOf 'm' it with
    | none => rw [extractStep_m, h]
    | some sz =>
      rw [extractStep_m, h]
      simp [foldSet]

theorem extract_fold_r (l : List (Option String))
    (acc : List String × List String × List String) :
    (l.foldl extractStep acc).2.2 = foldSet (l.filterMap (bucketOf 'r')) acc.2.2 := by
  induction l generalizing acc with
  | nil => simp [foldSet]
  | cons it rest ih =>
    simp only [List.foldl_cons, List.filterMap_cons]
    rw [ih]
    cases h : bucketOf 'r' it with
    | none => rw [extractStep_r, h]
    | some sz =>
      rw [extractStep_r, h]
      simp [foldSet]

/-- Membership characterization of the three output lists. -/
theorem extract_mem (l : List (Option String)) (x : String) :
    (x ∈ (extract_instance_families l).1 ↔ x ∈ l.filterMap (bucketOf 'c')) ∧
    (x ∈ (extract_instance_families l).2.1 ↔ x ∈ l.filterMap (bucketOf 'm')) ∧
    (x ∈ (extract_instance_families l).2.2 ↔ x ∈ l.filterMap (bucketOf 'r')) := by
  unfold extract_instance_families
  rw [extract_fold_fst, extract_fold_m, extract_fold_r]
  simp [mem_foldSet]

/-- Each output list is strictly sorted. -/
theorem extract_sorted (l : List (Option String)) :
    (extract_instance_families l).1.Sorted (· < ·) ∧
    (extract_instance_families l).2.1.Sorted (· < ·) ∧
    (extract_instance_families l).2.2.Sorted (· < ·) := by
  unfold extract_instance_families
  rw [extract_fold_fst, extract_fold_m, extract_fold_r]
  exact ⟨sorted_foldSet _ _ (by simp), sorted_foldSet _ _ (by simp),
    sorted_foldSet _ _ (by simp)⟩

/-- The classifier output depends only on the membership of classified
tokens: two inputs producing the same classified tokens (as sets) give
identical output triples. -/
theorem extract_eq_of_mem_iff (l l' : List (Option String))
    (h : ∀ c x, x ∈ l.filterMap (bucketOf c) ↔ x ∈ l'.filterMap (bucketOf c)) :
    extract_instance_families l = extract_instance_families l' := by
  have hs := extract_sorted l
  have hs' := extract_sorted l'
  have hm := fun x => extract_mem l x
  have hm' := fun x => extract_mem l' x
  refine Prod.ext ?_ (Prod.ext ?_ ?_)
  · exact sorted_eq_of_mem_iff hs.1 hs'.1 fun x =>
      ((hm x).1.trans (h 'c' x)).trans (hm' x).1.symm
  · exact sorted_eq_of_mem_iff hs.2.1 hs'.2.1 fun x =>
      ((hm x).2.1.trans (h 'm' x)).trans (hm' x).2.1.symm
  · exact sorted_eq_of_mem_iff hs.2.2 hs'.2.2 fun x =>
      ((hm x).2.2.trans (h 'r' x)).trans (hm' x).2.2.symm

/-- A step on an unclassified element leaves the accumulator unchanged. -/
theorem extractStep_noop (acc : List String × List String × List String)
    (it : Option String) (h : classify it = none) : extractStep acc it = acc := by
  cases it with
  | none => rfl
  | some s =>
    simp only [extractStep, classify, classifyAdd] at h ⊢
    by_cases h0 : s = ""
    · simp [h0]
    · simp only [h0, ite_false] at h ⊢
      cases hsp : splitDot s with
      | nil => simp
      | cons fp rest =>
        cases rest with
        | nil => simp
        | cons sz rest2 =>
          rw [hsp] at h
          by_cases hc : strStartsWith fp 'c'
          · simp [hc] at h
          · by_cases hm : strStartsWith fp 'm'
            · simp [hc, hm] at h
            · by_cases hr : strStartsWith fp 'r'
              · simp [hc, hm, hr] at h
              · simp [hc, hm, hr]

/-! ## Claim C2 and C6 theorems -/

/-- **C2.** For every capacity-type identifier string in the input list,
`extract_instance_families` places the token after the first dot in the
`c_family` bucket when the part before the first dot starts with `c`, in
`m_family` for `m`, in `r_family` for `r`; an element with any other
first character, fewer than two dot-separated parts, or empty/None is
unclassified and contributes to no bucket (and the function is total, so
it never raises).  The concrete example
`["c6i.4xlarge", "c6i.2xlarge", "m5.large"]` yields
`c_family = ["2xlarge", "4xlarge"]`, `m_family = ["large"]`,
`r_family = []`. -/
theorem C2_family_classifier (l : List (Option String)) :
    (∀ s fp sz rest, some s ∈ l → splitDot s = fp :: sz :: rest →
      strStartsWith fp 'c' = true → sz ∈ (extract_instance_families l).1) ∧
    (∀ s fp sz rest, some s ∈ l → splitDot s = fp :: sz :: rest →
      strStartsWith fp 'c' = false → strStartsWith fp 'm' = true →
      sz ∈ (extract_instance_families l).2.1) ∧
    (∀ s fp sz rest, some s ∈ l → splitDot s = fp :: sz :: rest →
      strStartsWith fp 'c' = false → strStartsWith fp 'm' = false →
      strStartsWith fp 'r' = true → sz ∈ (extract_instance_families l).2.2) ∧
    (∀ l₂ it, classify it = none →
      extract_instance_families (l ++ it :: l₂) =
        extract_instance_families (l ++ l₂)) ∧
    extract_instance_families [some "c6i.4xlarge", some "c6i.2xlarge", some "m5.large"] =
      (["2xlarge", "4xlarge"], ["large"], []) := by
  have hempty : ∀ s : String, splitDot s ≠ [String.mk s.toList.reverse.reverse] → s ≠ "" := by
    intro s h heq
    subst heq
    exact h rfl
  refine ⟨?_, ?_, ?_, ?_, by decide⟩
  · intro s fp sz rest hmem hsp hc
    have hs : s ≠ "" := by
      intro h
      subst h
      simp [splitDot, splitDotAux, String.toList] at hsp
    refine ((extract_mem l sz).1).mpr ?_
    refine List.mem_filterMap.mpr ⟨some s, hmem, ?_⟩
    simp [bucketOf, classify, hs, hsp, hc]
  · intro s fp sz rest hmem hsp hc hm
    have hs : s ≠ "" := by
      intro h
      subst h
      simp [splitDot, splitDotAux, String.toList] at hsp
    refine ((extract_mem l sz).2.1).mpr ?_
    refine List.mem_filterMap.mpr ⟨some s, hmem, ?_⟩
    simp [bucketOf, classify, hs, hsp, hc, hm]
  · intro s fp sz rest hmem hsp hc hm hr
    have hs : s ≠ "" := by
      intro h
      subst h
      simp [splitDot, splitDotAux, String.toList] at hsp
    refine ((extract_mem l sz).2.2).mpr ?_
    refine List.mem_filterMap.mpr ⟨some s, hmem, ?_⟩
    simp [bucketOf, classify, hs, hsp, hc, hm, hr]
  · intro l₂ it h
    unfold extract_instance_families
    rw [List.foldl_append, List.foldl_append, List.foldl_cons,
      extractStep_noop _ _ h]

/-- Witness for C2 at the concrete input of the claim. -/
theorem C2_family_classifier_witness :
    "4xlarge" ∈ (extract_instance_families
      [some "c6i.4xlarge", some "c6i.2xlarge", some "m5.large"]).1 ∧
    extract_instance_families
      ([some "c6i.4xlarge"] ++ some "t3.micro" :: [some "m5.large"]) =
      extract_instance_families ([some "c6i.4xlarge"] ++ [some "m5.large"]) := by
  refine ⟨(C2_family_classifier _).1 "c6i.4xlarge" "c6i" "4xlarge" []
    (by decide) (by decide) (by decide), ?_⟩
  exact (C2_family_classifier [some "c6i.4xlarge"]).2.2.2.1
    [some "m5.large"] (some "t3.micro") (by decide)

/-- **C6.** For any input list of capacity-type identifiers, each of the
three family size lists produced by `extract_instance_families` is
lexicographically sorted (strictly, hence also duplicate-free), and the
output triple is invariant under permutation of the input and under
duplication of the input list. -/
theorem C6_sorted_dedup_invariant (l : List (Option String)) :
    ((extract_instance_families l).1.Sorted (· < ·) ∧
      (extract_instance_families l).1.Nodup) ∧
    ((extract_instance_families l).2.1.Sorted (· < ·) ∧
      (extract_instance_families l).2.1.Nodup) ∧
    ((extract_instance_families l).2.2.Sorted (· < ·) ∧
      (extract_instance_families l).2.2.Nodup) ∧
    (∀ l', l.Perm l' → extract_instance_families l = extract_instance_families l') ∧
    extract_instance_families (l ++ l) = extract_instance_families l := by
  have hs := extract_sorted l
  refine ⟨⟨hs.1, hs.1.nodup⟩, ⟨hs.2.1, hs.2.1.nodup⟩, ⟨hs.2.2, hs.2.2.nodup⟩, ?_, ?_⟩
  · intro l' hperm
    refine extract_eq_of_mem_iff l l' fun c x => ?_
    exact (hperm.filterMap (bucketOf c)).mem_iff
  · refine extract_eq_of_mem_iff (l ++ l) l fun c x => ?_
    simp [List.filterMap_append]

/-- Witness for C6 at a concrete input. -/
theorem C6_sorted_dedup_invariant_witness :
    extract_instance_families [some "m5.large", some "c6i.4xlarge"] =
      extract_instance_families [some "c6i.4xlarge", some "m5.large"] :=
  (C6_sorted_dedup_invariant [some "m5.large", some "c6i.4xlarge"]).2.2.2.1
    [some "c6i.4xlarge", some "m5.large"] (List.Perm.swap _ _ _)

/-! ### Evaluation lemmas for the parser on collector-shaped payloads -/

@[simp]
theorem okBind (a : α) (f : α → Except String β) : (Except.ok a >>= f) = f a := rfl

@[simp]
theorem okPure (a : α) : (pure a : Except String α) = Except.ok a := rfl

theorem foldlM_famStep_str (l : List String) (acc : List String × List String × List String) :
    (l.map Value.str).foldlM famStep acc = Except.ok ((l.map some).foldl extractStep acc) := by
  induction l generalizing acc with
  | nil => rfl
  | cons s rest ih =>
    simp only [List.map_cons, List.foldlM_cons, List.foldl_cons]
    by_cases h : s = ""
    · subst h
      rw [show famStep acc (Value.str "") = pure acc from rfl,
        show extractStep acc (some "") = acc from rfl]
      rw [pure_bind]
      exact ih acc
    · have h1 : famStep acc (Value.str s) = pure (classifyAdd acc s) := by
        simp [famStep, truthy, h]
      have h2 : extractStep acc (some s) = classifyAdd acc s := by
        simp [extractStep, h]
      rw [h1, h2, pure_bind]
      exact ih _

theorem extractFamiliesListV_str (l : List String) :
    extractFamiliesListV (l.map Value.str) =
      Except.ok (extract_instance_families (l.map some)) := by
  rw [extractFamiliesListV, foldlM_famStep_str]
  rfl

theorem lzEntryOfItem_src (zone_name : String) (z : ZoneSrc) :
    lzEntryOfItem (zone_name, ZoneSrc.toValue zone_name z) =
      Except.ok (localZoneEntry zone_name z) := by
  simp only [lzEntryOfItem, ZoneSrc.toValue, pyGetD, dictGet, extractFamiliesV, pyIter,
    okBind, localZoneEntry]
  simp [extractFamiliesListV_str]

@[simp]
theorem okMap (a : α) (f : α → β) :
    (f <$> Except.ok a : Except String β) = Except.ok (f a) := rfl

theorem foldlM_lzLoopStep (zones : List (String × ZoneSrc)) (acc : List Value) :
    (zones.map (fun p => (p.1, ZoneSrc.toValue p.1 p.2))).foldlM lzLoopStep acc =
      Except.ok (acc ++ zones.map (fun p => localZoneEntry p.1 p.2)) := by
  induction zones generalizing acc with
  | nil => simp
  | cons z rest ih =>
    simp only [List.map_cons, List.foldlM_cons]
    rw [show lzLoopStep acc (z.1, ZoneSrc.toValue z.1 z.2) =
      (lzEntryOfItem (z.1, ZoneSrc.toValue z.1 z.2) >>=
        fun entry => pure (acc ++ [entry])) from rfl]
    rw [lzEntryOfItem_src, okBind, pure_bind, ih]
    simp

theorem parseLocalZones_src (region : String) (zones : List (String × ZoneSrc))
    (dr : Value) :
    parseLocalZones (mkLocalZonesPayload region zones dr) =
      Except.ok (zones.map (fun p => localZoneEntry p.1 p.2)) := by
  rw [show parseLocalZones (mkLocalZonesPayload region zones dr) =
    (zones.map (fun p => (p.1, ZoneSrc.toValue p.1 p.2))).foldlM lzLoopStep [] from rfl]
  rw [foldlM_lzLoopStep]
  rfl

theorem foldlM_opInner (ts : List String) (acc : List Value) :
    (ts.map (fun t => Value.dict [("InstanceType", Value.str t)])).foldlM
      opInnerStep acc = Except.ok (acc ++ ts.map Value.str) := by
  induction ts generalizing acc with
  | nil => simp
  | cons t rest ih =>
    simp only [List.map_cons, List.foldlM_cons]
    rw [show opInnerStep acc (Value.dict [("InstanceType", Value.str t)]) =
      Except.ok (acc ++ [Value.str t]) from rfl]
    rw [okBind, ih]
    simp

theorem opCollectTypes_src (acc : List Value) (s : ServerSrc) :
    opCollectTypes acc (ServerSrc.toValue s) =
      Except.ok (acc ++ s.instanceTypes.map Value.str) := by
  rw [show opCollectTypes acc (ServerSrc.toValue s) =
    (s.instanceTypes.map (fun t => Value.dict [("InstanceType", Value.str t)])).foldlM
      opInnerStep acc from rfl]
  rw [foldlM_opInner]

theorem foldlM_opCollect (servers : List ServerSrc) (acc : List Value) :
    (servers.map ServerSrc.toValue).foldlM opCollectTypes acc =
      Except.ok (acc ++ (servers.map (fun s => s.instanceTypes.map Value.str)).flatten) := by
  induction servers generalizing acc with
  | nil => simp
  | cons s rest ih =>
    simp only [List.map_cons, List.foldlM_cons]
    rw [opCollectTypes_src, okBind, ih]
    simp

theorem parseOutposts_src (region : String) (racks : List (String × OutpostSrc))
    (dr : Value) :
    parseOutposts (mkOutpostsPayload region racks dr) =
      Except.ok (outpostsEntry region racks) := by
  cases racks with
  | nil => rfl
  | cons r rest =>
    rw [show parseOutposts (mkOutpostsPayload region (r :: rest) dr) =
      ((r.2.servers.map ServerSrc.toValue).foldlM opCollectTypes [] >>=
        fun all_instance_types => extractFamiliesListV all_instance_types >>=
          fun fams => pure (Value.dict [("edge_id", Value.str r.1),
            ("parent_region", Value.str region),
            ("parent_az", r.2.availabilityZone),
            ("c_family", Value.list (fams.1.map Value.str)),
            ("m_family", Value.list (fams.2.1.map Value.str)),
            ("r_family", Value.list (fams.2.2.map Value.str))])) from rfl]
    rw [foldlM_opCollect, okBind, List.nil_append]
    rw [show (r.2.servers.map (fun s => s.instanceTypes.map Value.str)).flatten =
      ((r.2.servers.map ServerSrc.instanceTypes).flatten).map Value.str by
        rw [List.map_flatten, List.map_map]; rfl]
    rw [extractFamiliesListV_str, okBind]
    rfl

theorem parse_success (regionO regionL : String) (racks : List (String × OutpostSrc))
    (zones : List (String × ZoneSrc)) (drO drL : Value) (errs : List String) :
    parse_edge_discovery_data
        (Results.mk (mkOutpostsPayload regionO racks drO)
          (mkLocalZonesPayload regionL zones drL) errs) =
      Except.ok (answerValue (zones.map (fun p => localZoneEntry p.1 p.2))
        (outpostsEntry regionO racks)) := by
  rw [show parse_edge_discovery_data
      (Results.mk (mkOutpostsPayload regionO racks drO)
        (mkLocalZonesPayload regionL zones drL) errs) =
    (parseLocalZones (mkLocalZonesPayload regionL zones drL) >>=
      fun public_local_zones => parseOutposts (mkOutpostsPayload regionO racks drO) >>=
        fun outposts => pure (Value.dict [("answer", Value.dict
          [("public_local_zones", Value.list public_local_zones),
           ("outposts", outposts)])])) from rfl]
  rw [parseLocalZones_src, okBind, parseOutposts_src, okBind]
  rfl

/-- `lambda_handler` unfolded to its branch structure. -/
theorem lambda_handler_eq (o l : InvokeOutcome) :
    lambda_handler o l =
      if (mkResults o l).errors.length = 0 then
        match parse_edge_discovery_data (mkResults o l) with
        | .ok formatted => .ok (LambdaResponse.mk 200 formatted)
        | .error e => .error e
      else .ok (LambdaResponse.mk 500 (failureBody (mkResults o l).errors)) := rfl

theorem listIsPrefix_append (l r : List Char) : listIsPrefix l (l ++ r) = true := by
  induction l with
  | nil => rfl
  | cons a as ih => simp [listIsPrefix, ih]

theorem msgHasPrefix_append (p r : String) : msgHasPrefix p (p ++ r) = true := by
  rw [msgHasPrefix, show (p ++ r).toList = p.toList ++ r.toList from rfl]
  exact listIsPrefix_append _ _

/-- A failing outposts try/except block appends exactly one error message
attributable to the Extension Collector. -/
theorem processInvoke_outposts_err (o : InvokeOutcome)
    (h : (processInvoke "Outposts" "get_outposts_details" o).2 ≠ []) :
    ∃ m, (processInvoke "Outposts" "get_outposts_details" o).2 = [m] ∧
      isOutpostsErrorMsg m = true := by
  cases o with
  | raises b e =>
    cases b
    · exact ⟨_, rfl, by
        rw [show ("Unexpected error calling " ++ "get_outposts_details" ++ ": " ++ e) =
          "Unexpected error calling get_outposts_details: " ++ e from rfl]
        simp [isOutpostsErrorMsg, msgHasPrefix_append]⟩
    · exact ⟨_, rfl, by
        rw [show ("Error calling " ++ "get_outposts_details" ++ ": " ++ e) =
          "Error calling get_outposts_details: " ++ e from rfl]
        simp [isOutpostsErrorMsg, msgHasPrefix_append]⟩
  | returns code p =>
    cases p with
    | error e =>
      exact ⟨_, rfl, by
        rw [show ("Unexpected error calling " ++ "get_outposts_details" ++ ": " ++ e) =
          "Unexpected error calling get_outposts_details: " ++ e from rfl]
        simp [isOutpostsErrorMsg, msgHasPrefix_append]⟩
    | ok payload =>
      by_cases hc : code = 200
      · subst hc
        simp [processInvoke] at h
      · refine ⟨"Outposts" ++ " lambda failed with status: " ++ toString code, ?_, ?_⟩
        · simp [processInvoke, hc]
        · rw [show ("Outposts" ++ " lambda failed with status: " ++ toString code) =
            "Outposts lambda failed with status: " ++ toString code from rfl]
          simp [isOutpostsErrorMsg, msgHasPrefix_append]

/-- A failing localzones try/except block appends exactly one error
message attributable to the Zone Collector. -/
theorem processInvoke_localzones_err (l : InvokeOutcome)
    (h : (processInvoke "Local zones" "get_localzones_details" l).2 ≠ []) :
    ∃ m, (processInvoke "Local zones" "get_localzones_details" l).2 = [m] ∧
      isLocalzonesErrorMsg m = true := by
  cases l with
  | raises b e =>
    cases b
    · exact ⟨_, rfl, by
        rw [show ("Unexpected error calling " ++ "get_localzones_details" ++ ": " ++ e) =
          "Unexpected error calling get_localzones_details: " ++ e from rfl]
        simp [isLocalzonesErrorMsg, msgHasPrefix_append]⟩
    · exact ⟨_, rfl, by
        rw [show ("Error calling " ++ "get_localzones_details" ++ ": " ++ e) =
          "Error calling get_localzones_details: " ++ e from rfl]
        simp [isLocalzonesErrorMsg, msgHasPrefix_append]⟩
  | returns code p =>
    cases p with
    | error e =>
      exact ⟨_, rfl, by
        rw [show ("Unexpected error calling " ++ "get_localzones_details" ++ ": " ++ e) =
          "Unexpected error calling get_localzones_details: " ++ e from rfl]
        simp [isLocalzonesErrorMsg, msgHasPrefix_append]⟩
    | ok payload =>
      by_cases hc : code = 200
      · subst hc
        simp [processInvoke] at h
      · refine ⟨"Local zones" ++ " lambda failed with status: " ++ toString code, ?_, ?_⟩
        · simp [processInvoke, hc]
        · rw [show ("Local zones" ++ " lambda failed with status: " ++ toString code) =
            "Local zones lambda failed with status: " ++ toString code from rfl]
          simp [isLocalzonesErrorMsg, msgHasPrefix_append]

/-! ## Claim C1 -/

/-- **C1.** The Aggregator declares overall success if and only if the
accumulated error list is empty (both collector try/except blocks
appended nothing): with an empty error list it takes the success branch
and returns the formatted Unified Answer Document; with a non-empty
error list it returns the statusCode-500 failure response carrying the
full error list and no answer document; a statusCode-200 response is
only ever produced with an empty error list; and when the Zone Collector
succeeds while the Extension Collector fails, the failure response
carries exactly one error entry, attributable to the Extension
Collector. -/
theorem C1_all_or_nothing (o l : InvokeOutcome) :
    ((mkResults o l).errors = [] →
      lambda_handler o l =
        match parse_edge_discovery_data (mkResults o l) with
        | .ok f => .ok (LambdaResponse.mk 200 f)
        | .error e => .error e) ∧
    ((mkResults o l).errors ≠ [] →
      lambda_handler o l =
        .ok (LambdaResponse.mk 500 (failureBody (mkResults o l).errors))) ∧
    (∀ v, lambda_handler o l = .ok (LambdaResponse.mk 200 v) →
      (mkResults o l).errors = []) ∧
    ((processInvoke "Local zones" "get_localzones_details" l).2 = [] →
     (processInvoke "Outposts" "get_outposts_details" o).2 ≠ [] →
      ∃ m, (mkResults o l).errors = [m] ∧ isOutpostsErrorMsg m = true ∧
        lambda_handler o l = .ok (LambdaResponse.mk 500 (failureBody [m]))) := by
  have herr : (mkResults o l).errors =
      (processInvoke "Outposts" "get_outposts_details" o).2 ++
      (processInvoke "Local zones" "get_localzones_details" l).2 := rfl
  refine ⟨?_, ?_, ?_, ?_⟩
  · intro h
    rw [lambda_handler_eq, h]
    rfl
  · intro h
    rw [lambda_handler_eq, if_neg]
    simpa using h
  · intro v hv
    by_cases h : (mkResults o l).errors = []
    · exact h
    · rw [lambda_handler_eq, if_neg (by simpa using h)] at hv
      cases hv
  · intro hlz hop
    obtain ⟨m, hm, hmsg⟩ := processInvoke_outposts_err o hop
    have he : (mkResults o l).errors = [m] := by
      rw [herr, hlz, hm, List.append_nil]
    refine ⟨m, he, hmsg, ?_⟩
    rw [lambda_handler_eq, if_neg (by simp [he]), he]

/-- Witness for C1: the Extension Collector raises, the Zone Collector
succeeds; the result is the 500 failure response with exactly the one
extension-collector error and no answer document. -/
theorem C1_all_or_nothing_witness :
    lambda_handler (.raises true "boom") (.returns 200 (.ok .null)) =
      .ok (LambdaResponse.mk 500
        (failureBody ["Error calling get_outposts_details: boom"])) := by
  have h := (C1_all_or_nothing (.raises true "boom")
    (.returns 200 (.ok .null))).2.1 (by decide)
  exact h

/-! ## Claim C3 -/

/-- **C3 (amended).** On full success the Aggregator builds the
`outposts` (extensions) entry from the **first** extension rack only:
its capacity pool flattens the capacity-type identifiers of the physical
assets of that first rack (as `outpostsEntry` shows), the first rack
carries the `edge_id`/`parent_az` metadata, and every rack after the
first is ignored entirely (the entry for `r :: rest` equals the entry
for `[r]`). -/
theorem C3_extensions_first_rack (region regionL : String) (r : String × OutpostSrc)
    (rest : List (String × OutpostSrc)) (dr drL : Value) :
    parseOutposts (mkOutpostsPayload region (r :: rest) dr) =
      Except.ok (outpostsEntry region (r :: rest)) ∧
    outpostsEntry region (r :: rest) = outpostsEntry region [r] ∧
    lambda_handler (.returns 200 (.ok (mkOutpostsPayload region (r :: rest) dr)))
        (.returns 200 (.ok (mkLocalZonesPayload regionL [] drL))) =
      .ok (LambdaResponse.mk 200 (answerValue [] (outpostsEntry region [r]))) := by
  refine ⟨parseOutposts_src region (r :: rest) dr, rfl, ?_⟩
  rw [lambda_handler_eq]
  rw [show mkResults (.returns 200 (.ok (mkOutpostsPayload region (r :: rest) dr)))
      (.returns 200 (.ok (mkLocalZonesPayload regionL [] drL))) =
    Results.mk (mkOutpostsPayload region (r :: rest) dr)
      (mkLocalZonesPayload regionL [] drL) [] from rfl]
  rw [parse_success]
  rfl

/-- Counterexample for C3 as stated: with two extension racks, the
second rack offers `m1.big` but the Aggregator's entry has an empty
`m_family` — the pool is not flattened across all racks. -/
theorem C3_counterexample :
    parseOutposts (mkOutpostsPayload "us-west-2"
        [("op-1", OutpostSrc.mk .null .null (.str "az1") .null .null
            [ServerSrc.mk .null .null .null .null ["c1.large"]]),
         ("op-2", OutpostSrc.mk .null .null (.str "az2") .null .null
            [ServerSrc.mk .null .null .null .null ["m1.big"]])] .null) =
      Except.ok (outpostsEntry "us-west-2"
        [("op-1", OutpostSrc.mk .null .null (.str "az1") .null .null
            [ServerSrc.mk .null .null .null .null ["c1.large"]]),
         ("op-2", OutpostSrc.mk .null .null (.str "az2") .null .null
            [ServerSrc.mk .null .null .null .null ["m1.big"]])]) ∧
    outpostsEntry "us-west-2"
        [("op-1", OutpostSrc.mk .null .null (.str "az1") .null .null
            [ServerSrc.mk .null .null .null .null ["c1.large"]]),
         ("op-2", OutpostSrc.mk .null .null (.str "az2") .null .null
            [ServerSrc.mk .null .null .null .null ["m1.big"]])] ≠
      outpostsEntryAllRacks "us-west-2"
        [("op-1", OutpostSrc.mk .null .null (.str "az1") .null .null
            [ServerSrc.mk .null .null .null .null ["c1.large"]]),
         ("op-2", OutpostSrc.mk .null .null (.str "az2") .null .null
            [ServerSrc.mk .null .null .null .null ["m1.big"]])] := by
  refine ⟨parseOutposts_src _ _ _, fun h => ?_⟩
  rw [show outpostsEntry "us-west-2"
      [("op-1", OutpostSrc.mk .null .null (.str "az1") .null .null
          [ServerSrc.mk .null .null .null .null ["c1.large"]]),
       ("op-2", OutpostSrc.mk .null .null (.str "az2") .null .null
          [ServerSrc.mk .null .null .null .null ["m1.big"]])] =
    Value.dict [("edge_id", .str "op-1"), ("parent_region", .str "us-west-2"),
      ("parent_az", .str "az1"), ("c_family", .list [.str "large"]),
      ("m_family", .list []), ("r_family", .list [])] from rfl] at h
  rw [show outpostsEntryAllRacks "us-west-2"
      [("op-1", OutpostSrc.mk .null .null (.str "az1") .null .null
          [ServerSrc.mk .null .null .null .null ["c1.large"]]),
       ("op-2", OutpostSrc.mk .null .null (.str "az2") .null .null
          [ServerSrc.mk .null .null .null .null ["m1.big"]])] =
    Value.dict [("edge_id", .str "op-1"), ("parent_region", .str "us-west-2"),
      ("parent_az", .str "az1"), ("c_family", .list [.str "large"]),
      ("m_family", .list [.str "big"]), ("r_family", .list [])] from rfl] at h
  simp at h

/-! ## Claim C4 -/

/-- **C4 (amended).** Within one aggregation request the two collector
invocations are totally ordered with the **Extension Collector
(`get_outposts_details`) first** and the Zone Collector
(`get_localzones_details`) second; errors are appended in invocation
order, so when both fail the error list is exactly
`[extension error, zone error]`. -/
theorem C4_invocation_order (o l : InvokeOutcome) :
    (mkResults o l).errors =
      (processInvoke "Outposts" "get_outposts_details" o).2 ++
      (processInvoke "Local zones" "get_localzones_details" l).2 ∧
    ((processInvoke "Outposts" "get_outposts_details" o).2 ≠ [] →
     (processInvoke "Local zones" "get_localzones_details" l).2 ≠ [] →
      ∃ mo ml, isOutpostsErrorMsg mo = true ∧ isLocalzonesErrorMsg ml = true ∧
        (mkResults o l).errors = [mo, ml] ∧
        lambda_handler o l =
          .ok (LambdaResponse.mk 500 (failureBody [mo, ml]))) := by
  refine ⟨rfl, fun hop hlz => ?_⟩
  obtain ⟨mo, hmo, hmsgo⟩ := processInvoke_outposts_err o hop
  obtain ⟨ml, hml, hmsgl⟩ := processInvoke_localzones_err l hlz
  have he : (mkResults o l).errors = [mo, ml] := by
    rw [show (mkResults o l).errors =
      (processInvoke "Outposts" "get_outposts_details" o).2 ++
      (processInvoke "Local zones" "get_localzones_details" l).2 from rfl, hmo, hml]
    rfl
  refine ⟨mo, ml, hmsgo, hmsgl, he, ?_⟩
  rw [lambda_handler_eq, if_neg (by simp [he]), he]

/-- Counterexample for C4 as stated: when both collectors fail, the
Extension Collector's error precedes the Zone Collector's in the
accumulated list — the opposite of the claimed zone-first order. -/
theorem C4_counterexample :
    lambda_handler (.raises true "boom") (.raises true "crash") =
      .ok (LambdaResponse.mk 500 (failureBody
        ["Error calling get_outposts_details: boom",
         "Error calling get_localzones_details: crash"])) ∧
    failureBody ["Error calling get_outposts_details: boom",
        "Error calling get_localzones_details: crash"] ≠
      failureBody ["Error calling get_localzones_details: crash",
        "Error calling get_outposts_details: boom"] := by
  refine ⟨rfl, fun h => ?_⟩
  simp [failureBody] at h

/-- Witness for C4 discharging both failure hypotheses. -/
theorem C4_invocation_order_witness :
    ∃ mo ml, isOutpostsErrorMsg mo = true ∧ isLocalzonesErrorMsg ml = true ∧
      (mkResults (.raises true "a") (.raises false "b")).errors = [mo, ml] ∧
      lambda_handler (.raises true "a") (.raises false "b") =
        .ok (LambdaResponse.mk 500 (failureBody [mo, ml])) :=
  (C4_invocation_order (.raises true "a") (.raises false "b")).2
    (by decide) (by decide)

/-! ## Claim C5 -/

/-- **C5 (amended).** Failures of the collector invocations themselves —
raised exceptions, non-success statuses, payload JSON-decoding errors —
are all caught inside the two try/except blocks and stringified into the
error list, and whenever the error list is non-empty the handler returns
a structured response (never raises).  But `parse_edge_discovery_data`
runs outside any try/except, so the only way `lambda_handler` can raise
is on the full-success path, when normalizing a malformed success
payload: every uncaught exception of the handler is an exception of
`parse_edge_discovery_data` on the fully-successful `results`. -/
theorem C5_exception_boundary (o l : InvokeOutcome) :
    ((mkResults o l).errors ≠ [] → ∃ r, lambda_handler o l = Except.ok r) ∧
    (∀ e, lambda_handler o l = .error e →
      (mkResults o l).errors = [] ∧
      parse_edge_discovery_data (mkResults o l) = .error e) := by
  constructor
  · intro h
    exact ⟨_, by rw [lambda_handler_eq, if_neg (by simpa using h)]⟩
  · intro e he
    by_cases h : (mkResults o l).errors = []
    · refine ⟨h, ?_⟩
      rw [lambda_handler_eq, h] at he
      revert he
      cases hp : parse_edge_discovery_data (mkResults o l) with
      | ok f => intro he; cases he
      | error e2 => intro he; cases he; rfl
    · rw [lambda_handler_eq, if_neg (by simpa using h)] at he
      cases he

/-- Counterexample for C5 as stated: both collectors "succeed", but the
Zone Collector's payload maps a zone name to a string, so
`parse_edge_discovery_data` raises AttributeError at
`zone_info.get('InstanceTypes', [])` and the exception propagates out of
`lambda_handler` uncaught. -/
theorem C5_counterexample :
    lambda_handler (.returns 200 (.ok .null))
      (.returns 200 (.ok (Value.dict [("body", Value.dict
        [("localZones", Value.dict [("z1", Value.str "oops")])])]))) =
      Except.error "AttributeError: get" := rfl

/-- Witness for C5 at a concrete failing collector outcome. -/
theorem C5_exception_boundary_witness :
    ∃ r, lambda_handler (.raises false "x") (.returns 200 (.ok .null)) =
      Except.ok r :=
  (C5_exception_boundary (.raises false "x") (.returns 200 (.ok .null))).1
    (by decide)

/-! ## Claim C7 -/

/-- **C7.** On full success the Aggregator emits exactly one
`public_local_zones` entry per zone reported by the Zone Collector, in
the order the zones appear in the collector's response mapping, each
carrying the zone's own name as `edge_id`, its declared `RegionName` as
`parent_region`, its declared `ParentAZ` as `parent_az`, and the three
classified family size lists computed from that zone's `InstanceTypes`
(see `localZoneEntry`); only the size lists are sorted, the entry
sequence itself is the collector's order. -/
theorem C7_zone_entries (regionO regionL : String)
    (racks : List (String × OutpostSrc)) (zones : List (String × ZoneSrc))
    (drO drL : Value) :
    lambda_handler (.returns 200 (.ok (mkOutpostsPayload regionO racks drO)))
        (.returns 200 (.ok (mkLocalZonesPayload regionL zones drL))) =
      .ok (LambdaResponse.mk 200
        (answerValue (zones.map (fun p => localZoneEntry p.1 p.2))
          (outpostsEntry regionO racks))) := by
  rw [lambda_handler_eq]
  rw [show mkResults (.returns 200 (.ok (mkOutpostsPayload regionO racks drO)))
      (.returns 200 (.ok (mkLocalZonesPayload regionL zones drL))) =
    Results.mk (mkOutpostsPayload regionO racks drO)
      (mkLocalZonesPayload regionL zones drL) [] from rfl]
  rw [parse_success]
  rfl

/-! ## Claims C8, C9, C10 -/

@[simp]
theorem errBind (e : String) (f : α → Except String β) :
    (Except.error e >>= f : Except String β) = Except.error e := rfl

theorem dynamoWriteLoop_ok (put : Value → Except String Unit) (mkItem : α → Value)
    (data : List α) : ∀ (n : Nat) (trace : List Value),
    (∀ x ∈ data, put (mkItem x) = Except.ok ()) →
      dynamoWriteLoop put mkItem data n trace =
        (Except.ok (n + data.length), trace ++ data.map mkItem) := by
  induction data with
  | nil => intro n trace _; simp [dynamoWriteLoop]
  | cons x rest ih =>
    intro n trace h
    have hx := h x (List.mem_cons_self _ _)
    simp only [dynamoWriteLoop, hx]
    rw [ih (n + 1) (trace ++ [mkItem x]) (fun y hy => h y (List.mem_cons_of_mem _ hy))]
    have harith : n + 1 + rest.length = n + (x :: rest).length := by
      simp [List.length_cons]; omega
    rw [harith]
    simp

theorem dynamoWriteLoop_abort (put : Value → Except String Unit) (mkItem : α → Value)
    (z : α) (post : List α) (e : String) (hz : put (mkItem z) = Except.error e) :
    ∀ (pre : List α), (∀ x ∈ pre, put (mkItem x) = Except.ok ()) →
    ∀ (n : Nat) (trace : List Value),
      dynamoWriteLoop put mkItem (pre ++ z :: post) n trace =
        (Except.error e, trace ++ pre.map mkItem ++ [mkItem z]) := by
  intro pre
  induction pre with
  | nil => intro _ n trace; simp [dynamoWriteLoop, hz]
  | cons x rest ih =>
    intro h n trace
    have hx := h x (List.mem_cons_self _ _)
    rw [List.cons_append]
    simp only [dynamoWriteLoop, hx]
    rw [ih (fun y hy => h y (List.mem_cons_of_mem _ hy)) (n + 1) (trace ++ [mkItem x])]
    simp

/-- **C9 (amended).** Both collectors' `write_to_dynamo` write the
records sequentially as independent upserts, but there is no per-record
exception handling: when no write fails the function returns the count
of records submitted (equal to the number of input records, with every
record's item passed to `put_item`); when a write fails, the exception
propagates out of the function (no count is returned) and the records
after the failing one are never submitted — a failing write does block
the rest of the batch. -/
theorem C9_writer (put : Value → Except String Unit) :
    (∀ data : List (String × ZoneSrc),
      (∀ p ∈ data, put (lzItem p.2) = Except.ok ()) →
      write_to_dynamo_localzones put data =
        (Except.ok data.length, data.map (fun p => lzItem p.2))) ∧
    (∀ data : List (String × OutpostSrc),
      (∀ p ∈ data, put (opItem p.1 p.2) = Except.ok ()) →
      write_to_dynamo_outposts put data =
        (Except.ok data.length, data.map (fun p => opItem p.1 p.2))) ∧
    (∀ (pre : List (String × ZoneSrc)) (z : String × ZoneSrc)
       (post : List (String × ZoneSrc)) (e : String),
      (∀ p ∈ pre, put (lzItem p.2) = Except.ok ()) →
      put (lzItem z.2) = Except.error e →
      write_to_dynamo_localzones put (pre ++ z :: post) =
        (Except.error e, pre.map (fun p => lzItem p.2) ++ [lzItem z.2])) ∧
    (∀ (pre : List (String × OutpostSrc)) (z : String × OutpostSrc)
       (post : List (String × OutpostSrc)) (e : String),
      (∀ p ∈ pre, put (opItem p.1 p.2) = Except.ok ()) →
      put (opItem z.1 z.2) = Except.error e →
      write_to_dynamo_outposts put (pre ++ z :: post) =
        (Except.error e, pre.map (fun p => opItem p.1 p.2) ++ [opItem z.1 z.2])) := by
  refine ⟨?_, ?_, ?_, ?_⟩
  · intro data h
    rw [write_to_dynamo_localzones, dynamoWriteLoop_ok put _ data 0 [] h]
    simp
  · intro data h
    rw [write_to_dynamo_outposts, dynamoWriteLoop_ok put _ data 0 [] h]
    simp
  · intro pre z post e hpre hz
    rw [write_to_dynamo_localzones, dynamoWriteLoop_abort put _ z post e hz pre hpre 0 []]
    simp
  · intro pre z post e hpre hz
    rw [write_to_dynamo_outposts, dynamoWriteLoop_abort put _ z post e hz pre hpre 0 []]
    simp

/-- Counterexample for C9 as stated: two records, the first record's
`put_item` raises; the writer raises (returns no count) and the second
record is never submitted — 1 of 2 items reached `put_item`. -/
theorem C9_counterexample :
    (write_to_dynamo_localzones
      (fun item => match item with
        | Value.dict (("edge_id", Value.str "z1") :: _) => Except.error "boom"
        | _ => Except.ok ())
      [("lz-a", ZoneSrc.mk (.str "z1") .null .null .null .null .null []),
       ("lz-b", ZoneSrc.mk (.str "z2") .null .null .null .null .null [])]).1 =
      Except.error "boom" ∧
    (write_to_dynamo_localzones
      (fun item => match item with
        | Value.dict (("edge_id", Value.str "z1") :: _) => Except.error "boom"
        | _ => Except.ok ())
      [("lz-a", ZoneSrc.mk (.str "z1") .null .null .null .null .null []),
       ("lz-b", ZoneSrc.mk (.str "z2") .null .null .null .null .null [])]).2.length = 1 ∧
    [("lz-a", ZoneSrc.mk (Value.str "z1") .null .null .null .null .null []),
     ("lz-b", ZoneSrc.mk (Value.str "z2") .null .null .null .null .null [])].length = 2 :=
  ⟨rfl, rfl, rfl⟩

/-- Witness for C9 with an always-succeeding store. -/
theorem C9_writer_witness :
    write_to_dynamo_localzones (fun _ => Except.ok ())
      [("lz-a", ZoneSrc.mk (.str "z1") .null .null .null .null .null [])] =
      (Except.ok 1,
       [lzItem (ZoneSrc.mk (.str "z1") .null .null .null .null .null [])]) :=
  (C9_writer (fun _ => Except.ok ())).1
    [("lz-a", ZoneSrc.mk (.str "z1") .null .null .null .null .null [])]
    (fun _ _ => rfl)

/-- **C8.** For every requested location identifier: when the store
holds no record for it, `get_parent_az` returns the
`found=false, parent_az=None` record (and, being total, never raises and
never fails the whole request); when one or more records match, the
first record returned by the store is used and the result is
`found=true` with that record's `parent_az`; and the function performs
no mutation of the store (the store component passes through
unchanged). -/
theorem C8_parent_az_lookup (store : List (List (String × Value))) (edge_id : String) :
    (table_query_discovery store edge_id = [] →
      (get_parent_az edge_id store).1 =
        Value.dict [("edge_id", .str edge_id), ("parent_az", .null),
          ("found", .bool false)]) ∧
    (∀ item rest, table_query_discovery store edge_id = item :: rest →
      (get_parent_az edge_id store).1 =
        Value.dict [("edge_id", .str edge_id),
          ("parent_az", (dictGet item "parent_az").getD .null),
          ("found", .bool true)]) ∧
    (get_parent_az edge_id store).2 = store := by
  refine ⟨?_, ?_, ?_⟩
  · intro h
    simp [get_parent_az, h]
  · intro item rest h
    simp [get_parent_az, h]
  · cases h : table_query_discovery store edge_id with
    | nil => simp [get_parent_az, h]
    | cons item rest => simp [get_parent_az, h]

/-- Witness for C8: a hit and a miss on a one-record store. -/
theorem C8_parent_az_lookup_witness :
    (get_parent_az "usw2-lax-1a"
        [[("edge_id", Value.str "usw2-lax-1a"), ("parent_az", Value.str "usw2-az1")]]).1 =
      Value.dict [("edge_id", .str "usw2-lax-1a"), ("parent_az", .str "usw2-az1"),
        ("found", .bool true)] ∧
    (get_parent_az "does-not-exist"
        [[("edge_id", Value.str "usw2-lax-1a"), ("parent_az", Value.str "usw2-az1")]]).1 =
      Value.dict [("edge_id", .str "does-not-exist"), ("parent_az", .null),
        ("found", .bool false)] :=
  ⟨(C8_parent_az_lookup
      [[("edge_id", Value.str "usw2-lax-1a"), ("parent_az", Value.str "usw2-az1")]]
      "usw2-lax-1a").2.1
    [("edge_id", Value.str "usw2-lax-1a"), ("parent_az", Value.str "usw2-az1")] [] rfl,
   (C8_parent_az_lookup
      [[("edge_id", Value.str "usw2-lax-1a"), ("parent_az", Value.str "usw2-az1")]]
      "does-not-exist").1 rfl⟩

/-- **C10.** For every event whose `parameters` list has fewer than two
entries, the Parent-Zone Lookup handler raises an uncaught exception
instead of returning the statusCode-400 missing-parameters response,
because `parameters[0]`/`parameters[1]` are indexed before the
validation and outside the try block; in particular, with the
Bedrock-agent keys present and an empty parameters list the uncaught
exception is the IndexError. -/
theorem C10_missing_params_raises (store : List (List (String × Value)))
    (event : List (String × Value)) (ps : List Value)
    (hp : (dictGet event "parameters").getD (.list []) = Value.list ps)
    (hlen : ps.length < 2) :
    (∃ msg, get_parent_az_lambda_handler store event = Except.error msg) ∧
    (ps = [] → (dictGet event "agent").isSome = true →
      (dictGet event "actionGroup").isSome = true →
      (dictGet event "function").isSome = true →
      get_parent_az_lambda_handler store event =
        Except.error "IndexError: list index out of range") := by
  constructor
  · cases hag : dictGet event "agent" with
    | none =>
      exact ⟨"KeyError: agent", by simp [get_parent_az_lambda_handler, keyLookup, hag]⟩
    | some ag =>
      cases hac : dictGet event "actionGroup" with
      | none =>
        exact ⟨"KeyError: actionGroup", by
          simp [get_parent_az_lambda_handler, keyLookup, hag, hac]⟩
      | some ac =>
        cases hfn : dictGet event "function" with
        | none =>
          exact ⟨"KeyError: function", by
            simp [get_parent_az_lambda_handler, keyLookup, hag, hac, hfn]⟩
        | some fn =>
          cases ps with
          | nil =>
            exact ⟨"IndexError: list index out of range", by
              simp [get_parent_az_lambda_handler, keyLookup, hag, hac, hfn, hp,
                pyIndex, listNth]⟩
          | cons p0 rest =>
            have hrest : rest = [] := by
              cases rest with
              | nil => rfl
              | cons a b => simp [List.length_cons] at hlen; omega
            subst hrest
            cases hpg : pyGetD p0 "value" (Value.null) with
            | error e =>
              exact ⟨e, by
                simp [get_parent_az_lambda_handler, keyLookup, hag, hac, hfn, hp,
                  pyIndex, listNth, hpg]⟩
            | ok v =>
              exact ⟨"IndexError: list index out of range", by
                simp [get_parent_az_lambda_handler, keyLookup, hag, hac, hfn, hp,
                  pyIndex, listNth, hpg]⟩
  · intro hps hag hac hfn
    subst hps
    obtain ⟨ag, hag⟩ := Option.isSome_iff_exists.mp hag
    obtain ⟨ac, hac⟩ := Option.isSome_iff_exists.mp hac
    obtain ⟨fn, hfn⟩ := Option.isSome_iff_exists.mp hfn
    simp [get_parent_az_lambda_handler, keyLookup, hag, hac, hfn, hp, pyIndex, listNth]

/-- Witness for C10: an event carrying the Bedrock-agent keys and no
`parameters` key (so the defaulted parameters list is empty). -/
theorem C10_missing_params_raises_witness :
    get_parent_az_lambda_handler []
        [("agent", Value.null), ("actionGroup", Value.null), ("function", Value.null)] =
      Except.error "IndexError: list index out of range" :=
  (C10_missing_params_raises []
    [("agent", Value.null), ("actionGroup", Value.null), ("function", Value.null)]
    [] rfl (by decide)).2 rfl rfl rfl rfl

end EdgeHA
